import Mathlib

/-!
Verification development for the `mostro-tools` client library.

The definitions below are a shallow embedding of the TypeScript sources:
- `src/client/mostro.ts` (the `Mostro` orchestrator class),
- `src/utils/nostr.ts` (the `Nostr` relay/crypto wrapper),
- `src/types/core/message.ts` (message and action types).

JavaScript numbers that the code uses as integers (request ids, amounts,
timestamps) are modelled as `Nat`/`Int`; none of the relevant code paths
perform arithmetic anywhere near 2^53, so overflow is not modelled.
JavaScript runtime values that may be absent (`undefined`) are modelled as
`Option`. Code that throws an exception which the caller can observe is
modelled with `Except`; a `try/catch` that swallows the exception is
modelled by the catch branch's result.  External cryptographic primitives
(secp256k1 public-key derivation, bech32 codecs) are passed in as explicit
function parameters, since the library only pipes their results around.
-/

namespace MostroTools

/-- A JSON value, used to model what `JSON.stringify` produces.  Numbers are
modelled as `Int` (all serialized numbers in the claims are integers).
Per ECMA-262 `SerializeJSONArray`, an `undefined` element of an array is
serialized as `null`; the serializers below encode that rule. -/
inductive Json where
  | null : Json
  | bool (b : Bool) : Json
  | num (n : Int) : Json
  | str (s : String) : Json
  | arr (xs : List Json) : Json
  | obj (fields : List (String × Json)) : Json

/-- The `Action` enum of `src/types/core/message.ts` (the full closed set). -/
inductive Action where
  | newOrder | takeSell | takeBuy | payInvoice | addInvoice | fiatSent | fiatSentOk
  | release | released | cancel | canceled
  | waitingBuyerInvoice | waitingSellerToPay | buyerTookOrder
  | holdInvoicePaymentAccepted | holdInvoicePaymentSettled | holdInvoicePaymentCanceled
  | cooperativeCancelInitiatedByYou | cooperativeCancelInitiatedByPeer
  | cooperativeCancelAccepted
  | rate | rateUser | rateReceived
  | dispute | disputeInitiatedByYou | disputeInitiatedByPeer
  | cantDo | outOfRangeFiatAmount | isNotYourDispute | notFound
  | incorrectInvoiceAmount | invalidSatsAmount | outOfRangeSatsAmount
  | paymentFailed | invoiceUpdated
deriving DecidableEq, Repr

/-- The string value of each `Action` enum member. -/
def Action.toWire : Action → String
  | .newOrder => "new-order"
  | .takeSell => "take-sell"
  | .takeBuy => "take-buy"
  | .payInvoice => "pay-invoice"
  | .addInvoice => "add-invoice"
  | .fiatSent => "fiat-sent"
  | .fiatSentOk => "fiat-sent-ok"
  | .release => "release"
  | .released => "released"
  | .cancel => "cancel"
  | .canceled => "canceled"
  | .waitingBuyerInvoice => "waiting-buyer-invoice"
  | .waitingSellerToPay => "waiting-seller-to-pay"
  | .buyerTookOrder => "buyer-took-order"
  | .holdInvoicePaymentAccepted => "hold-invoice-payment-accepted"
  | .holdInvoicePaymentSettled => "hold-invoice-payment-settled"
  | .holdInvoicePaymentCanceled => "hold-invoice-payment-canceled"
  | .cooperativeCancelInitiatedByYou => "cooperative-cancel-initiated-by-you"
  | .cooperativeCancelInitiatedByPeer => "cooperative-cancel-initiated-by-peer"
  | .cooperativeCancelAccepted => "cooperative-cancel-accepted"
  | .rate => "rate"
  | .rateUser => "rate-user"
  | .rateReceived => "rate-received"
  | .dispute => "dispute"
  | .disputeInitiatedByYou => "dispute-initiated-by-you"
  | .disputeInitiatedByPeer => "dispute-initiated-by-peer"
  | .cantDo => "cant-do"
  | .outOfRangeFiatAmount => "out-of-range-fiat-amount"
  | .isNotYourDispute => "is-not-your-dispute"
  | .notFound => "not-found"
  | .incorrectInvoiceAmount => "incorrect-invoice-amount"
  | .invalidSatsAmount => "invalid-sats-amount"
  | .outOfRangeSatsAmount => "out-of-range-sats-amount"
  | .paymentFailed => "payment-failed"
  | .invoiceUpdated => "invoice-updated"

/-- Modelled from the spec: the `Order` record of `src/types/core/order.ts`,
which is not among the sources (only its callers are).  Spec section 3 lists
the attributes; the `fiat_amount` range form `[min,max]` is not needed by any
claim and is modelled as a plain integer. -/
structure Order where
  id : String
  kind : String
  status : String
  amount : Int
  fiat_code : String
  fiat_amount : Int
  payment_method : String
  platform : Option String
  created_at : Int
deriving DecidableEq, Repr

/-- Modelled from the spec: the `NewOrder` input of `submitOrder`
(`src/types/core/order.ts` is not among the sources). -/
structure NewOrder where
  kind : String
  amount : Int
  fiat_code : String
  fiat_amount : Int
  payment_method : String
  premium : Option Int := none
  status : Option String := none
  created_at : Option Int := none
deriving DecidableEq, Repr

/-- The `MostroInfo` interface of `src/types/core/message.ts`. -/
structure MostroInfo where
  mostro_pubkey : String
  mostro_version : String
  mostro_commit_id : String
  max_order_amount : Int
  min_order_amount : Int
  expiration_hours : Int
  expiration_seconds : Int
  fee : Int
  hold_invoice_expiration_window : Int
  invoice_expiration_window : Int
deriving DecidableEq, Repr

/-- A Nostr event as delivered by the relay gateway (`NDKEvent`): the fields
the embedded code reads. -/
structure NostrEvent where
  id : String
  pubkey : String
  created_at : Int
  kind : Nat
  tags : List (List String)
  content : String
deriving DecidableEq, Repr

/-- The `OrderFilters` interface of `src/utils/nostr.ts`.  A `none` field is
an absent (`undefined`) filter field. -/
structure OrderFilters where
  authors : Option (List String) := none
  orderType : Option String := none
  currency : Option String := none
  status : Option String := none
  documentType : Option String := none
  platform : Option String := none
  paymentMethods : Option (List String) := none
deriving DecidableEq, Repr

/-- The tag map built by `Nostr.isOrderEvent` (nostr.ts lines 221-226): it
iterates the tag list and `Map.set`s `tag[0] -> tag[1]` for each tag with
`tag.length >= 2`, so for duplicate keys the last such tag wins. -/
def tagLookup (tags : List (List String)) (key : String) : Option String :=
  tags.foldl
    (fun acc t =>
      match t with
      | k :: v :: _ => if k = key then some v else acc
      | _ => acc)
    none

/-- One exact-match filter check of `Nostr.isOrderEvent`: when the filter
field is present, the tag value must exist and equal it (nostr.ts lines
229-266, the five identical `if` blocks for keys z, k, f, s, y). -/
def checkTag (tags : List (List String)) (key : String) (filterVal : Option String) : Bool :=
  match filterVal with
  | none => true
  | some v =>
    match tagLookup tags key with
    | none => false
    | some tv => tv == v

/-- The payment-methods check of `Nostr.isOrderEvent` (nostr.ts lines
269-279).  JavaScript `!pmTag` is true for both a missing tag and an empty
string value.  The tag value is comma-split, trimmed and lowercased; the
filter entries are lowercased (not trimmed); the check passes iff some
filter entry occurs among the tag's methods. -/
def checkPaymentMethods (tags : List (List String)) (pms : Option (List String)) : Bool :=
  match pms with
  | none => true
  | some l =>
    if l.isEmpty then true
    else
      match tagLookup tags "pm" with
      | none => false
      | some pmTag =>
        if pmTag = "" then false
        else
          let orderPms := (pmTag.splitOn ",").map (fun x => x.trim.toLower)
          let filterPms := l.map String.toLower
          filterPms.any (fun pm => orderPms.contains pm)

/-- `Nostr.isOrderEvent` (nostr.ts lines 220-282): the event matches iff
every present filter field is satisfied by the corresponding tag. -/
def isOrderEvent (ev : NostrEvent) (filters : OrderFilters) : Bool :=
  checkTag ev.tags "z" filters.documentType &&
  checkTag ev.tags "k" filters.orderType &&
  checkTag ev.tags "f" filters.currency &&
  checkTag ev.tags "s" filters.status &&
  checkTag ev.tags "y" filters.platform &&
  checkPaymentMethods ev.tags filters.paymentMethods

/-- A parsed inbound `MostroMessage.order` part (message.ts lines 17-24), as
it exists at runtime after `JSON.parse`: every field may be absent. The
`action` is the raw string from the wire (TypeScript merely casts it). -/
structure InOrderPart where
  version : Option Nat := none
  id : Option String := none
  request_id : Option Nat := none
  action : Option String := none
  created_at : Option Int := none
deriving DecidableEq, Repr

/-- A parsed inbound `cant-do` part (message.ts lines 25-34); the private
message handler never reads it, but it is part of the parsed shape. -/
structure InCantDoPart where
  version : Option Nat := none
  id : Option String := none
  request_id : Option Nat := none
  pubkey : Option String := none
  text_message : Option String := none
deriving DecidableEq, Repr

/-- A parsed inbound `MostroMessage` (message.ts lines 16-36). -/
structure InMostroMessage where
  order : Option InOrderPart := none
  cant_do : Option InCantDoPart := none
  created_at : Option Int := none
deriving DecidableEq, Repr

/-- The observable effects the `Mostro` orchestrator can emit while handling
an inbound event.  `resolvePending` is the effect of fulfilling an
outstanding pending request's promise with a reply (the `resolve` stored by
`createPendingRequest`); it is part of the vocabulary so that theorems can
state whether a handler ever performs it. -/
inductive Emitted where
  | orderUpdate (o : Order) (raw : NostrEvent) : Emitted
  | mostroInfo (info : MostroInfo) : Emitted
  | dmEvent (msg : InMostroMessage) (sender : String) : Emitted
  | namedEvent (name : String) (msg : InMostroMessage) (sender : String) : Emitted
  | resolvePending (id : Nat) (msg : InMostroMessage) : Emitted

/-- The action-and-order-id specific events emitted by
`Mostro.handlePrivateMessage` (mostro.ts lines 139-147): when the parsed
message has an `order` part whose `id` and `action` are both truthy
(present, non-empty strings), emit `"<action>-<orderId>"`. -/
def dmNamedEvents (m : InMostroMessage) (sender : String) : List Emitted :=
  match m.order with
  | some op =>
    match op.id, op.action with
    | some oid, some act =>
      if oid ≠ "" ∧ act ≠ "" then [Emitted.namedEvent (act ++ "-" ++ oid) m sender] else []
    | _, _ => []
  | none => []

/-- `Mostro.handlePrivateMessage` (mostro.ts lines 133-153).  The argument is
the result of `JSON.parse` on the decrypted content: `none` models a parse
failure, in which case the error is logged and nothing is emitted.  On
success the handler emits the action-orderId event (if any) and then the
general `dm` event.  It performs no other effect: in particular it never
reads or writes `pendingRequests`. -/
def handlePrivateMessage (parsed : Option InMostroMessage) (sender : String) : List Emitted :=
  match parsed with
  | none => []
  | some m => dmNamedEvents m sender ++ [Emitted.dmEvent m sender]

/-- The tag map built by `Mostro.extractMostroInfoFromEvent` (mostro.ts line
418): `new Map(ev.tags.map(tag => [tag[0], tag[1]]))` — every tag is
entered, the last occurrence of a key wins, and a tag of length 1 enters the
key with an `undefined` value (overwriting any earlier value). -/
def infoTagLookup (tags : List (List String)) (key : String) : Option String :=
  tags.foldl
    (fun acc t =>
      match t with
      | [] => acc
      | [k] => if k = key then none else acc
      | k :: v :: _ => if k = key then some v else acc)
    none

/-- Models the JavaScript `Number(tags.get(k)) || d` idiom of
`extractMostroInfoFromEvent`: an absent value gives `NaN` (falsy), an
unparseable string gives `NaN` (falsy), and a parsed `0` is falsy; all three
fall back to the default.  `Number` is modelled as decimal integer parsing
(all tag values involved are integers). -/
def numOr (v : Option String) (d : Int) : Int :=
  match v with
  | none => d
  | some s =>
    match s.toInt? with
    | none => d
    | some n => if n = 0 then d else n

/-- `Mostro.extractMostroInfoFromEvent` (mostro.ts lines 416-437).  The
`try/catch` cannot fire on the pure operations involved, so the result is
always `some`; string fields default to `""` (`|| ''`) and numeric fields
default per `numOr`. -/
def extractMostroInfoFromEvent (ev : NostrEvent) : Option MostroInfo :=
  some
    { mostro_pubkey := (infoTagLookup ev.tags "mostro_pubkey").getD ""
      mostro_version := (infoTagLookup ev.tags "mostro_version").getD ""
      mostro_commit_id := (infoTagLookup ev.tags "mostro_commit_id").getD ""
      max_order_amount := numOr (infoTagLookup ev.tags "max_order_amount") 0
      min_order_amount := numOr (infoTagLookup ev.tags "min_order_amount") 0
      expiration_hours := numOr (infoTagLookup ev.tags "expiration_hours") 24
      expiration_seconds := numOr (infoTagLookup ev.tags "expiration_seconds") 900
      fee := numOr (infoTagLookup ev.tags "fee") 0
      hold_invoice_expiration_window :=
        numOr (infoTagLookup ev.tags "hold_invoice_expiration_window") 120
      invoice_expiration_window :=
        numOr (infoTagLookup ev.tags "invoice_expiration_window") 120 }

/-- The first value of a tag key, used for order extraction. -/
def tagFirst (tags : List (List String)) (key : String) : Option String :=
  match tags.find? (fun t => t.headD "" == key) with
  | some (_ :: v :: _) => some v
  | _ => none

/-- Modelled from the spec: `extractOrderFromEvent` of `src/core/order.ts`
is not among the sources.  Spec section 4.D: extraction reads the canonical
tags (`d` = id, `k` = kind, `s` = status, `f` = fiat_code, `fa` =
fiat_amount, `amt` = amount, `pm` = payment_method, `y` = platform),
interpreting tags as a mapping from key to first value, and events with
missing mandatory tags are silently dropped (`none`). -/
def extractOrderFromEvent (ev : NostrEvent) : Option Order :=
  match tagFirst ev.tags "d", tagFirst ev.tags "k", tagFirst ev.tags "s",
      tagFirst ev.tags "f" with
  | some d, some k, some s, some f =>
    some
      { id := d, kind := k, status := s, fiat_code := f
        amount := ((tagFirst ev.tags "amt").bind String.toInt?).getD 0
        fiat_amount := ((tagFirst ev.tags "fa").bind String.toInt?).getD 0
        payment_method := (tagFirst ev.tags "pm").getD ""
        platform := tagFirst ev.tags "y"
        created_at := ev.created_at }
  | _, _, _, _ => none

/-- `Mostro.handlePublicMessage` (mostro.ts lines 110-131).  Note the
handler only acts when `event.kind === 4`; any other kind (in particular the
kind-38383 order events the gateway subscription actually delivers) falls
through with no effect. -/
def handlePublicMessage (ev : NostrEvent) : List Emitted :=
  if ev.kind = 4 then
    match extractOrderFromEvent ev with
    | some o => [Emitted.orderUpdate o ev]
    | none =>
      match extractMostroInfoFromEvent ev with
      | some info => [Emitted.mostroInfo info]
      | none => []
  else []

/-- The `content` field of an outgoing payload's `order` part, exactly the
object literals written by the trade actions in mostro.ts: `null`,
`{ amount }`, `{ payment_request: [null, invoice, amount] }` (the `amount`
slot may be `undefined`), or `{ order }`. -/
inductive PContent where
  | null : PContent
  | amount (a : Int) : PContent
  | paymentRequest (invoice : String) (amount : Option Int) : PContent
  | order (o : Order) : PContent
deriving DecidableEq, Repr

/-- An outgoing payload: `{ order: { version: 1, request_id, action, id?,
content } }`.  `id` is absent for `submitOrder` and `order.id` otherwise. -/
structure PayloadOrder where
  version : Nat
  request_id : Nat
  action : Action
  id : Option String
  content : PContent
deriving DecidableEq, Repr

/-- The payload of `Mostro.takeSell` (mostro.ts lines 180-188).  JavaScript
`amount ? { amount } : null`: a supplied but zero (falsy) amount produces
`null`. -/
def takeSellPayload (requestId : Nat) (o : Order) (amount : Option Int) : PayloadOrder :=
  { version := 1, request_id := requestId, action := Action.takeSell, id := some o.id
    content :=
      match amount with
      | some a => if a = 0 then PContent.null else PContent.amount a
      | none => PContent.null }

/-- The payload of `Mostro.takeBuy` (mostro.ts lines 198-206), same
`amount ? { amount } : null` construction. -/
def takeBuyPayload (requestId : Nat) (o : Order) (amount : Option Int) : PayloadOrder :=
  { version := 1, request_id := requestId, action := Action.takeBuy, id := some o.id
    content :=
      match amount with
      | some a => if a = 0 then PContent.null else PContent.amount a
      | none => PContent.null }

/-- The payload of `Mostro.addInvoice` (mostro.ts lines 216-226): content is
always `{ payment_request: [null, invoice, amount] }`, with the third slot
`undefined` when no amount argument was passed. -/
def addInvoicePayload (requestId : Nat) (o : Order) (invoice : String)
    (amount : Option Int) : PayloadOrder :=
  { version := 1, request_id := requestId, action := Action.addInvoice, id := some o.id
    content := PContent.paymentRequest invoice amount }

/-- The payload of `Mostro.release` (mostro.ts lines 236-244). -/
def releasePayload (requestId : Nat) (o : Order) : PayloadOrder :=
  { version := 1, request_id := requestId, action := Action.release, id := some o.id
    content := PContent.null }

/-- The payload of `Mostro.fiatSent` (mostro.ts lines 254-262). -/
def fiatSentPayload (requestId : Nat) (o : Order) : PayloadOrder :=
  { version := 1, request_id := requestId, action := Action.fiatSent, id := some o.id
    content := PContent.null }

/-- The payload of `Mostro.submitOrder` (mostro.ts lines 163-170): no `id`
key, content `{ order }`. -/
def submitOrderPayload (requestId : Nat) (o : Order) : PayloadOrder :=
  { version := 1, request_id := requestId, action := Action.newOrder, id := none
    content := PContent.order o }

/-- `JSON.stringify` of an `Order` value (field order as declared). -/
def orderToJson (o : Order) : Json :=
  Json.obj
    [("id", Json.str o.id), ("kind", Json.str o.kind), ("status", Json.str o.status),
     ("amount", Json.num o.amount), ("fiat_code", Json.str o.fiat_code),
     ("fiat_amount", Json.num o.fiat_amount),
     ("payment_method", Json.str o.payment_method),
     ("platform", match o.platform with | none => Json.null | some p => Json.str p),
     ("created_at", Json.num o.created_at)]

/-- `JSON.stringify` of a payload `content`.  The key fact (ECMA-262
`SerializeJSONArray`): an `undefined` array element serializes as `null`, so
`[null, invoice, undefined]` becomes the three-element `[null, invoice,
null]`. -/
def contentToJson : PContent → Json
  | PContent.null => Json.null
  | PContent.amount a => Json.obj [("amount", Json.num a)]
  | PContent.paymentRequest invoice amount =>
    Json.obj
      [("payment_request",
        Json.arr
          [Json.null, Json.str invoice,
           match amount with | none => Json.null | some a => Json.num a])]
  | PContent.order o => Json.obj [("order", orderToJson o)]

/-- `JSON.stringify` of a full outgoing payload, keys in the literal's
insertion order; an absent `id` key is omitted entirely (`undefined` object
properties are dropped by `JSON.stringify`). -/
def payloadOrderToJson (p : PayloadOrder) : Json :=
  Json.obj
    [("order",
      Json.obj
        ([("version", Json.num p.version), ("request_id", Json.num p.request_id),
          ("action", Json.str p.action.toWire)] ++
         (match p.id with | none => [] | some i => [("id", Json.str i)]) ++
         [("content", contentToJson p.content)]))]

/-- The regular expression test of `Nostr.updatePrivKey` (nostr.ts line
408): 64 hexadecimal characters, case-insensitive. -/
def isHex64 (s : String) : Bool :=
  s.length = 64 &&
  s.toList.all (fun c => c.isDigit || ('a' ≤ c && c ≤ 'f') || ('A' ≤ c && c ≤ 'F'))

/-- The errors the embedded code can surface to a caller. -/
inductive MostroError where
  | keyManagerNotInitialized : MostroError
  | privateKeyNotSet : MostroError
  | invalidAmount : MostroError
deriving DecidableEq, Repr

/-- `Nostr.updatePrivKey` (nostr.ts lines 397-422).  `nsecDecode` models
`nip19.decode` restricted to the `nsec` case: `none` when decoding throws or
returns a non-nsec type.  The whole body sits inside `try/catch`; the catch
clause logs and sets the key to `undefined`, so no error ever escapes to the
caller — the result is always `Except.ok` (the `Except` layer records
exactly that).  An empty input string (falsy) also just clears the key. -/
def nostrUpdatePrivKey (nsecDecode : String → Option String) (privKey : String) :
    Except MostroError (Option String) :=
  if privKey ≠ "" then
    let tryResult : Option (Option String) :=
      if privKey.startsWith "nsec" then
        match nsecDecode privKey with
        | some k => some (some k)
        | none => none
      else if isHex64 privKey then some (some privKey)
      else none
    match tryResult with
    | some k => Except.ok k
    | none => Except.ok none
  else Except.ok none

/-- The `PublicKeyType` enum of mostro.ts lines 49-52. -/
inductive PublicKeyType where
  | hex
  | npub
deriving DecidableEq, Repr

/-- The external cryptographic primitives the library pipes data through:
secp256k1 public-key derivation (`getPublicKey`), bech32 `npub` encoding
(`nip19.npubEncode`), and `nip19.decode` for `nsec` keys. -/
structure CryptoEnv where
  derivePub : String → String
  npubEncode : String → String
  nsecDecode : String → Option String

/-- The random draws consumed while building one gift-wrapped publish:
`Date.now()` in milliseconds, the two `Math.random()` draws (inner rumor and
outer wrap timestamps), the random rumor id, and the ephemeral key's public
key. -/
structure RandomEnv where
  nowMs : Nat
  rInner : ℚ
  rOuter : ℚ
  rumorId : String
  ephemeralPub : String

/-- `Nostr.randomTimestamp` (nostr.ts lines 345-348):
`Math.floor(Date.now() / 1000 - Math.random() * TWO_DAYS)` with
`TWO_DAYS = 172800`, where the `Math.random()` draw `r` lies in `[0, 1)`. -/
def randomTimestamp (nowMs : Nat) (r : ℚ) : Int :=
  ⌊(nowMs : ℚ) / 1000 - r * 172800⌋

/-- The `GiftWrapContent` inner rumor (nostr.ts lines 127-135, built at
lines 363-370).  Its `content` is `JSON.stringify(payload)`; we keep the
structured `Json` value. -/
structure GiftWrapContent where
  id : String
  pubkey : String
  created_at : Int
  kind : Nat
  tags : List (List String)
  content : Json

/-- A produced kind-1059 gift wrap (nostr.ts lines 319-330).  `encryptedTo`
records the public key the NIP-44 conversation key was derived against —
the encryption recipient. -/
structure GiftWrapEvent where
  kind : Nat
  pubkey : String
  created_at : Int
  tags : List (List String)
  encryptedTo : String
  rumor : GiftWrapContent

/-- `Nostr.createGiftWrapEvent` (nostr.ts lines 319-330): a kind-1059 event
signed by a fresh ephemeral key, content encrypted to `recipientPublicKey`,
tag `["p", recipientPublicKey]`, `created_at` drawn by `randomTimestamp`. -/
def createGiftWrapEvent (env : RandomEnv) (content : GiftWrapContent)
    (recipientPublicKey : String) : GiftWrapEvent :=
  { kind := 1059, pubkey := env.ephemeralPub
    created_at := randomTimestamp env.nowMs env.rOuter
    tags := [["p", recipientPublicKey]]
    encryptedTo := recipientPublicKey
    rumor := content }

/-- `Nostr.createAndPublishMostroEvent` (nostr.ts lines 358-375): throws
`Private key not set` when no key is loaded; otherwise wraps the payload in
a rumor (random id, sender pubkey derived from the private key, its own
random timestamp, kind 1, no tags) and gift-wraps it to
`recipientPublicKey`. -/
def createAndPublishMostroEvent (c : CryptoEnv) (env : RandomEnv)
    (privKey : Option String) (payload : Json) (recipientPublicKey : String) :
    Except MostroError GiftWrapEvent :=
  match privKey with
  | none => Except.error MostroError.privateKeyNotSet
  | some k =>
    Except.ok
      (createGiftWrapEvent env
        { id := env.rumorId, pubkey := c.derivePub k
          created_at := randomTimestamp env.nowMs env.rInner
          kind := 1, tags := [], content := payload }
        recipientPublicKey)

/-- `Nostr.getMyPubKey` (nostr.ts lines 424-430): throws when no private key
is set; otherwise derives the public key of the *stored private key* and
encodes it per the requested type. -/
def getMyPubKey (c : CryptoEnv) (privKey : Option String) (t : PublicKeyType) :
    Except MostroError String :=
  match privKey with
  | none => Except.error MostroError.privateKeyNotSet
  | some k =>
    Except.ok (match t with
      | PublicKeyType.npub => c.npubEncode (c.derivePub k)
      | PublicKeyType.hex => c.derivePub k)

/-- The `MostroOptions` constructor options (mostro.ts lines 25-30). -/
structure MostroOptions where
  mostroPubKey : Option String := none
  relays : List String
  privateKey : Option String := none
  debug : Bool := false

/-- The mutable state of one `Mostro` instance that the claims concern:
`nextRequestId`, the keys of the `pendingRequests` map, the `activeOrders`
map (as an association list), the `Nostr` wrapper's private key, and whether
`keyManager` has been set.  `mostroPubKey` is the configured Mostro public
key stored at construction (mostro.ts line 75). -/
structure MostroState where
  mostroPubKey : Option String
  privateKey : Option String
  keyManager : Bool
  nextRequestId : Nat
  pendingRequests : List Nat
  activeOrders : List (String × Order)

/-- `Mostro.createPendingRequest` (mostro.ts lines 392-414): returns the
current `nextRequestId` and post-increments it; a pending record is stored
under that id (with a timeout timer).  Returns the id and the new state. -/
def createPendingRequest (s : MostroState) : Nat × MostroState :=
  (s.nextRequestId,
   { s with
       nextRequestId := s.nextRequestId + 1
       pendingRequests := s.pendingRequests ++ [s.nextRequestId] })

/-- Modelled from the spec: `prepareNewOrder` of `src/core/order.ts` is not
among the sources.  Spec section 4.G: it normalizes the input, filling
defaults (`created_at = now`, `status = pending`) and rejecting amounts < 0
with `InvalidAmount`. -/
def prepareNewOrder (now : Int) (n : NewOrder) : Except MostroError Order :=
  if n.amount < 0 then Except.error MostroError.invalidAmount
  else
    Except.ok
      { id := "", kind := n.kind, status := n.status.getD "pending"
        amount := n.amount, fiat_code := n.fiat_code, fiat_amount := n.fiat_amount
        payment_method := n.payment_method, platform := none
        created_at := n.created_at.getD now }

/-- The `Mostro` constructor (mostro.ts lines 65-81): `nextRequestId = 0`,
empty `pendingRequests` and `activeOrders`; when a private key option is
given, a `KeyManager` is created and `nostr.updatePrivKey` is called (whose
swallowed failure can still leave the `Nostr` key unset). -/
def mostroInit (c : CryptoEnv) (opts : MostroOptions) : MostroState :=
  { mostroPubKey := opts.mostroPubKey
    privateKey :=
      match opts.privateKey with
      | none => none
      | some pk =>
        match nostrUpdatePrivKey c.nsecDecode pk with
        | Except.ok k => k
        | Except.error _ => none
    keyManager := opts.privateKey.isSome
    nextRequestId := 0
    pendingRequests := []
    activeOrders := [] }

/-- `Mostro.getMostroPublicKey` (mostro.ts lines 443-445): it returns
`this.nostr.getMyPubKey(type)` — the public key derived from the instance's
own private key — not the configured `mostroPubKey`. -/
def getMostroPublicKey (c : CryptoEnv) (s : MostroState) (t : PublicKeyType) :
    Except MostroError String :=
  getMyPubKey c s.privateKey t

/-- `Mostro.takeSell` (mostro.ts lines 177-193) end to end: allocate a
pending request, build the payload, and gift-wrap-publish it to
`getMostroPublicKey(HEX)`.  Returns the new state and the published
kind-1059 event. -/
def mostroTakeSell (c : CryptoEnv) (env : RandomEnv) (s : MostroState) (o : Order)
    (amount : Option Int) : Except MostroError (MostroState × GiftWrapEvent) :=
  let rs := createPendingRequest s
  let payload := takeSellPayload rs.1 o amount
  match getMostroPublicKey c rs.2 PublicKeyType.hex with
  | Except.error e => Except.error e
  | Except.ok recipient =>
    match createAndPublishMostroEvent c env rs.2.privateKey
        (payloadOrderToJson payload) recipient with
    | Except.error e => Except.error e
    | Except.ok gw => Except.ok (rs.2, gw)

/-- One public operation on a `Mostro` instance, with the external inputs it
consumes.  `privateMessage` carries the already-decrypted-and-parsed body
(`none` = JSON parse failure); `requestTimeout` is the firing of a pending
request's timer (mostro.ts lines 402-405). -/
inductive MOp where
  | submitOrder (now : Int) (n : NewOrder) : MOp
  | takeSell (o : Order) (amount : Option Int) : MOp
  | takeBuy (o : Order) (amount : Option Int) : MOp
  | addInvoice (o : Order) (invoice : String) (amount : Option Int) : MOp
  | release (o : Order) : MOp
  | fiatSent (o : Order) : MOp
  | publicMessage (ev : NostrEvent) : MOp
  | privateMessage (sender : String) (parsed : Option InMostroMessage) : MOp
  | updatePrivKey (k : String) : MOp
  | requestTimeout (id : Nat) : MOp
  | getActiveOrdersOp : MOp
  | searchOrders (filters : OrderFilters) : MOp

/-- The state transition of each public operation (mostro.ts).  Trade
actions call `createPendingRequest` before any publish (whose failure
happens after the allocation); `submitOrder` first checks `keyManager`
(line 156) and runs `prepareNewOrder` (line 160), both before allocating.
The two inbound handlers and the search/read operations do not touch this
state; `updatePrivKey` (lines 447-450) re-runs `nostr.updatePrivKey` and
unconditionally installs a `KeyManager`; a firing request timer deletes its
entry from `pendingRequests`. -/
def stepOp (c : CryptoEnv) (s : MostroState) : MOp → MostroState
  | MOp.submitOrder now n =>
    if s.keyManager then
      match prepareNewOrder now n with
      | Except.ok _ => (createPendingRequest s).2
      | Except.error _ => s
    else s
  | MOp.takeSell _ _ => (createPendingRequest s).2
  | MOp.takeBuy _ _ => (createPendingRequest s).2
  | MOp.addInvoice _ _ _ => (createPendingRequest s).2
  | MOp.release _ => (createPendingRequest s).2
  | MOp.fiatSent _ => (createPendingRequest s).2
  | MOp.publicMessage _ => s
  | MOp.privateMessage _ _ => s
  | MOp.updatePrivKey k =>
    { s with
        keyManager := true
        privateKey :=
          match nostrUpdatePrivKey c.nsecDecode k with
          | Except.ok r => r
          | Except.error _ => none }
  | MOp.requestTimeout id =>
    { s with pendingRequests := s.pendingRequests.filter (fun x => x ≠ id) }
  | MOp.getActiveOrdersOp => s
  | MOp.searchOrders _ => s

/-- The request ids allocated by one operation from state `s`: exactly the
trade actions reach `createPendingRequest`, `submitOrder` only when its
preliminary checks pass. -/
def opAlloc (s : MostroState) : MOp → List Nat
  | MOp.submitOrder now n =>
    if s.keyManager then
      match prepareNewOrder now n with
      | Except.ok _ => [s.nextRequestId]
      | Except.error _ => []
    else []
  | MOp.takeSell _ _ => [s.nextRequestId]
  | MOp.takeBuy _ _ => [s.nextRequestId]
  | MOp.addInvoice _ _ _ => [s.nextRequestId]
  | MOp.release _ => [s.nextRequestId]
  | MOp.fiatSent _ => [s.nextRequestId]
  | _ => []

/-- All request ids allocated over a sequence of operations. -/
def runAllocs (c : CryptoEnv) (s : MostroState) : List MOp → List Nat
  | [] => []
  | op :: ops => opAlloc s op ++ runAllocs c (stepOp c s op) ops

/-- `Mostro.getActiveOrders` (mostro.ts lines 269-271):
`Array.from(this.activeOrders.values())`. -/
def getActiveOrders (s : MostroState) : List Order :=
  s.activeOrders.map Prod.snd

/-- A concrete sample order used by witnesses and counterexamples. -/
def order0 : Order :=
  { id := "o1", kind := "sell", status := "pending", amount := 0, fiat_code := "USD"
    fiat_amount := 100, payment_method := "bank transfer", platform := none
    created_at := 0 }

/-- A concrete crypto environment for witnesses: public-key derivation is
modelled by an injective string function. -/
def cryptoEnv0 : CryptoEnv :=
  { derivePub := fun k => k ++ "-pub", npubEncode := fun p => p, nsecDecode := fun _ => none }

/-- A concrete randomness environment for witnesses. -/
def randomEnv0 : RandomEnv :=
  { nowMs := 1700000000000, rInner := 0, rOuter := 0, rumorId := "rid", ephemeralPub := "eph" }

/- ------------------------------------------------------------------ -/
/- Theorems                                                           -/
/- ------------------------------------------------------------------ -/

theorem checkTag_sound {tags : List (List String)} {key : String} {fv : Option String}
    (h : checkTag tags key fv = true) :
    ∀ v, fv = some v → tagLookup tags key = some v := by
  intro v hv
  subst hv
  unfold checkTag at h
  cases hl : tagLookup tags key with
  | none => rw [hl] at h; exact absurd h (by simp)
  | some tv =>
    rw [hl] at h
    simp only [beq_iff_eq] at h
    rw [h]

theorem checkPaymentMethods_sound {tags : List (List String)} {pms : Option (List String)}
    (h : checkPaymentMethods tags pms = true) :
    ∀ l, pms = some l → l ≠ [] →
      ∃ pmTag, tagLookup tags "pm" = some pmTag ∧
        ∃ pm ∈ l, pm.toLower ∈ (pmTag.splitOn ",").map (fun x => x.trim.toLower) := by
  intro l hl hne
  subst hl
  have hie : l.isEmpty = false := by simpa using hne
  simp only [checkPaymentMethods, hie] at h
  cases hpm : tagLookup tags "pm" with
  | none => rw [hpm] at h; exact absurd h (by simp)
  | some pmTag =>
    rw [hpm] at h
    simp at h
    obtain ⟨hempty, x, hx, a, ha, heq⟩ := h
    exact ⟨pmTag, rfl, x, hx, List.mem_map.mpr ⟨a, ha, heq⟩⟩

/-- Claim C7: filter soundness of `isOrderEvent`.  Whenever
`isOrderEvent e f = true`, every present filter field is satisfied by the
corresponding tag of the event: `documentType` by tag `z`, `orderType` by
`k`, `currency` by `f`, `status` by `s`, `platform` by `y`, each by exact
(last-occurrence) tag-value equality, and a non-empty `paymentMethods` list
by a non-empty case-insensitive intersection with the comma-split, trimmed
`pm` tag value.  A missing filter field imposes no constraint: the empty
filter accepts every event. -/
theorem isOrderEvent_sound (ev : NostrEvent) (f : OrderFilters)
    (h : isOrderEvent ev f = true) :
    (∀ v, f.documentType = some v → tagLookup ev.tags "z" = some v) ∧
    (∀ v, f.orderType = some v → tagLookup ev.tags "k" = some v) ∧
    (∀ v, f.currency = some v → tagLookup ev.tags "f" = some v) ∧
    (∀ v, f.status = some v → tagLookup ev.tags "s" = some v) ∧
    (∀ v, f.platform = some v → tagLookup ev.tags "y" = some v) ∧
    (∀ l, f.paymentMethods = some l → l ≠ [] →
      ∃ pmTag, tagLookup ev.tags "pm" = some pmTag ∧
        ∃ pm ∈ l, pm.toLower ∈ (pmTag.splitOn ",").map (fun x => x.trim.toLower)) ∧
    (∀ e : NostrEvent, isOrderEvent e {} = true) := by
  unfold isOrderEvent at h
  simp only [Bool.and_eq_true] at h
  obtain ⟨⟨⟨⟨⟨h1, h2⟩, h3⟩, h4⟩, h5⟩, h6⟩ := h
  exact ⟨checkTag_sound h1, checkTag_sound h2, checkTag_sound h3, checkTag_sound h4,
    checkTag_sound h5, checkPaymentMethods_sound h6, fun _ => rfl⟩

/-- Witness for C7 at a concrete event and filter. -/
theorem isOrderEvent_sound_witness :
    isOrderEvent
        ⟨"e1", "pk", 0, 38383,
         [["z", "order"], ["k", "sell"], ["f", "USD"], ["pm", "cash, bank transfer"]], ""⟩
        ⟨none, some "sell", none, none, some "order", none, none⟩ = true ∧
    ((∀ v, (some "order" : Option String) = some v →
        tagLookup [["z", "order"], ["k", "sell"], ["f", "USD"],
          ["pm", "cash, bank transfer"]] "z" = some v) ∧
     (∀ v, (some "sell" : Option String) = some v →
        tagLookup [["z", "order"], ["k", "sell"], ["f", "USD"],
          ["pm", "cash, bank transfer"]] "k" = some v) ∧
     (∀ v, (none : Option String) = some v →
        tagLookup [["z", "order"], ["k", "sell"], ["f", "USD"],
          ["pm", "cash, bank transfer"]] "f" = some v) ∧
     (∀ v, (none : Option String) = some v →
        tagLookup [["z", "order"], ["k", "sell"], ["f", "USD"],
          ["pm", "cash, bank transfer"]] "s" = some v) ∧
     (∀ v, (none : Option String) = some v →
        tagLookup [["z", "order"], ["k", "sell"], ["f", "USD"],
          ["pm", "cash, bank transfer"]] "y" = some v) ∧
     (∀ l, (none : Option (List String)) = some l → l ≠ [] →
        ∃ pmTag, tagLookup [["z", "order"], ["k", "sell"], ["f", "USD"],
            ["pm", "cash, bank transfer"]] "pm" = some pmTag ∧
          ∃ pm ∈ l, pm.toLower ∈ (pmTag.splitOn ",").map (fun x => x.trim.toLower)) ∧
     (∀ e : NostrEvent, isOrderEvent e {} = true)) :=
  ⟨by decide,
   isOrderEvent_sound
     ⟨"e1", "pk", 0, 38383,
      [["z", "order"], ["k", "sell"], ["f", "USD"], ["pm", "cash, bank transfer"]], ""⟩
     ⟨none, some "sell", none, none, some "order", none, none⟩
     (by decide)⟩

theorem alloc_cons_range (c : CryptoEnv) (ops : List MOp) (s : MostroState)
    (ih : ∀ t, runAllocs c t ops = List.range' t.nextRequestId (runAllocs c t ops).length) :
    s.nextRequestId :: runAllocs c (createPendingRequest s).2 ops =
      List.range' s.nextRequestId
        (s.nextRequestId :: runAllocs c (createPendingRequest s).2 ops).length := by
  rw [List.length_cons, List.range'_succ]
  congr 1
  exact ih _

theorem runAllocs_eq_range' (c : CryptoEnv) :
    ∀ (ops : List MOp) (s : MostroState),
      runAllocs c s ops = List.range' s.nextRequestId (runAllocs c s ops).length := by
  intro ops
  induction ops with
  | nil => intro s; rfl
  | cons op ops ih =>
    intro s
    cases op with
    | submitOrder now n =>
      by_cases hk : s.keyManager
      · cases hp : prepareNewOrder now n with
        | ok o =>
          simp only [runAllocs,
            show opAlloc s (MOp.submitOrder now n) = [s.nextRequestId] by
              simp [opAlloc, hk, hp],
            show stepOp c s (MOp.submitOrder now n) = (createPendingRequest s).2 by
              simp [stepOp, hk, hp],
            List.singleton_append]
          exact alloc_cons_range c ops s ih
        | error e =>
          simp only [runAllocs,
            show opAlloc s (MOp.submitOrder now n) = [] by simp [opAlloc, hk, hp],
            show stepOp c s (MOp.submitOrder now n) = s by simp [stepOp, hk, hp],
            List.nil_append]
          exact ih s
      · simp only [runAllocs,
          show opAlloc s (MOp.submitOrder now n) = [] by simp [opAlloc, hk],
          show stepOp c s (MOp.submitOrder now n) = s by simp [stepOp, hk],
          List.nil_append]
        exact ih s
    | takeSell o a => exact alloc_cons_range c ops s ih
    | takeBuy o a => exact alloc_cons_range c ops s ih
    | addInvoice o i a => exact alloc_cons_range c ops s ih
    | release o => exact alloc_cons_range c ops s ih
    | fiatSent o => exact alloc_cons_range c ops s ih
    | publicMessage ev => exact ih s
    | privateMessage sender parsed => exact ih s
    | updatePrivKey k => exact ih _
    | requestTimeout id => exact ih _
    | getActiveOrdersOp => exact ih s
    | searchOrders f => exact ih s

/-- Claim C8: across every sequence of public operations on a freshly
constructed `Mostro` instance, the request ids allocated by
`createPendingRequest` are exactly `0, 1, 2, …` in order — they start at 0,
are strictly increasing, and no id is ever returned twice. -/
theorem requestIds_start_at_zero_strictly_increasing (c : CryptoEnv)
    (opts : MostroOptions) (ops : List MOp) :
    runAllocs c (mostroInit c opts) ops =
      List.range (runAllocs c (mostroInit c opts) ops).length ∧
    List.Pairwise (· < ·) (runAllocs c (mostroInit c opts) ops) := by
  have h := runAllocs_eq_range' c ops (mostroInit c opts)
  have hz : (mostroInit c opts).nextRequestId = 0 := rfl
  rw [hz] at h
  constructor
  · rw [List.range_eq_range']
    exact h
  · rw [h, ← List.range_eq_range']
    exact List.pairwise_lt_range _

theorem stepOp_activeOrders (c : CryptoEnv) (s : MostroState) (op : MOp) :
    (stepOp c s op).activeOrders = s.activeOrders := by
  cases op with
  | submitOrder now n =>
    by_cases hk : s.keyManager
    · cases hp : prepareNewOrder now n with
      | ok o => simp [stepOp, hk, hp, createPendingRequest]
      | error e => simp [stepOp, hk, hp]
    · simp [stepOp, hk]
  | takeSell o a => rfl
  | takeBuy o a => rfl
  | addInvoice o i a => rfl
  | release o => rfl
  | fiatSent o => rfl
  | publicMessage ev => rfl
  | privateMessage sender parsed => rfl
  | updatePrivKey k => rfl
  | requestTimeout id => rfl
  | getActiveOrdersOp => rfl
  | searchOrders f => rfl

/-- Claim C10: in every reachable state of a `Mostro` instance the
`activeOrders` map is empty — no public operation ever inserts into it — so
`getActiveOrders` always returns the empty list. -/
theorem activeOrders_always_empty (c : CryptoEnv) (opts : MostroOptions)
    (ops : List MOp) :
    (ops.foldl (stepOp c) (mostroInit c opts)).activeOrders = [] ∧
    getActiveOrders (ops.foldl (stepOp c) (mostroInit c opts)) = [] := by
  have key : ∀ (l : List MOp) (s : MostroState),
      (l.foldl (stepOp c) s).activeOrders = s.activeOrders := by
    intro l
    induction l with
    | nil => intro s; rfl
    | cons op l ih => intro s; rw [List.foldl_cons, ih, stepOp_activeOrders]
  constructor
  · rw [key]
    rfl
  · show ((ops.foldl (stepOp c) (mostroInit c opts)).activeOrders).map Prod.snd = []
    rw [key]
    rfl

/-- Claim C9: every produced kind-1059 gift wrap has
`now − 172800 ≤ created_at ≤ now`, where `now = ⌊Date.now() / 1000⌋` is the
creation-time clock in seconds, for every value `r ∈ [0, 1)` drawn by
`Math.random()`. -/
theorem giftWrap_created_at_bounded (env : RandomEnv) (content : GiftWrapContent)
    (recipient : String) (h0 : 0 ≤ env.rOuter) (h1 : env.rOuter < 1) :
    ⌊(env.nowMs : ℚ) / 1000⌋ - 172800 ≤
      (createGiftWrapEvent env content recipient).created_at ∧
    (createGiftWrapEvent env content recipient).created_at ≤ ⌊(env.nowMs : ℚ) / 1000⌋ := by
  have hca : (createGiftWrapEvent env content recipient).created_at
      = ⌊(env.nowMs : ℚ) / 1000 - env.rOuter * 172800⌋ := rfl
  rw [hca]
  constructor
  · have h2 : (env.nowMs : ℚ) / 1000 - ((172800 : ℤ) : ℚ) ≤
        (env.nowMs : ℚ) / 1000 - env.rOuter * 172800 := by
      have h3 : env.rOuter * 172800 ≤ 172800 := by nlinarith
      push_cast
      linarith
    calc ⌊(env.nowMs : ℚ) / 1000⌋ - 172800
        = ⌊(env.nowMs : ℚ) / 1000 - ((172800 : ℤ) : ℚ)⌋ := (Int.floor_sub_int _ _).symm
      _ ≤ ⌊(env.nowMs : ℚ) / 1000 - env.rOuter * 172800⌋ := Int.floor_mono h2
  · apply Int.floor_mono
    have h4 : 0 ≤ env.rOuter * 172800 := by positivity
    linarith

/-- Witness for C9 at a concrete clock value and random draw. -/
theorem giftWrap_created_at_bounded_witness :
    (0 ≤ ((1 : ℚ) / 2) ∧ ((1 : ℚ) / 2) < 1) ∧
    (⌊((1700000000000 : Nat) : ℚ) / 1000⌋ - 172800 ≤
        (createGiftWrapEvent ⟨1700000000000, 0, 1 / 2, "rid", "eph"⟩
          ⟨"id", "pk", 0, 1, [], Json.null⟩ "recipient").created_at ∧
      (createGiftWrapEvent ⟨1700000000000, 0, 1 / 2, "rid", "eph"⟩
          ⟨"id", "pk", 0, 1, [], Json.null⟩ "recipient").created_at ≤
        ⌊((1700000000000 : Nat) : ℚ) / 1000⌋) :=
  ⟨⟨by norm_num, by norm_num⟩,
   giftWrap_created_at_bounded ⟨1700000000000, 0, 1 / 2, "rid", "eph"⟩
     ⟨"id", "pk", 0, 1, [], Json.null⟩ "recipient" (by norm_num) (by norm_num)⟩

theorem resolvePending_never_emitted (parsed : Option InMostroMessage) (sender : String)
    (i : Nat) (mm : InMostroMessage) :
    Emitted.resolvePending i mm ∉ handlePrivateMessage parsed sender := by
  cases parsed with
  | none => simp [handlePrivateMessage]
  | some m =>
    intro hmem
    simp only [handlePrivateMessage, List.mem_append, List.mem_singleton] at hmem
    rcases hmem with hmem | hmem
    · unfold dmNamedEvents at hmem
      split at hmem
      · split at hmem
        · split at hmem
          · simp at hmem
          · simp at hmem
        · simp at hmem
      · simp at hmem
    · simp at hmem

/-- Claim C1 fails on the code: `handlePrivateMessage` (mostro.ts lines
133-153) never reads the `pendingRequests` table.  For any state with an
outstanding pending request whose id matches the inbound message's
`order.request_id`, handling the message leaves the state unchanged (the
record stays pending until its timeout rejects it) and the handler's
effects contain no resolution of any pending request — it only emits the
`"<action>-<orderId>"` event and the general `dm` event. -/
theorem handlePrivateMessage_never_resolves (c : CryptoEnv) (s : MostroState)
    (sender : String) (m : InMostroMessage) (rid : Nat)
    (hpend : rid ∈ s.pendingRequests)
    (hreq : m.order.bind (fun o => o.request_id) = some rid) :
    stepOp c s (MOp.privateMessage sender (some m)) = s ∧
    rid ∈ (stepOp c s (MOp.privateMessage sender (some m))).pendingRequests ∧
    ∀ i mm, Emitted.resolvePending i mm ∉ handlePrivateMessage (some m) sender :=
  ⟨rfl, hpend, fun i mm => resolvePending_never_emitted (some m) sender i mm⟩

/-- Witness for C1 at the spec's example: pending request id 0 outstanding,
inbound DM parsed as
`{order: {version: 1, id: "abc", request_id: 0, action: "new-order", created_at: 1}}`. -/
theorem handlePrivateMessage_never_resolves_witness :
    (0 ∈ (⟨none, some "sk", true, 1, [0], []⟩ : MostroState).pendingRequests ∧
      (InMostroMessage.mk (some ⟨some 1, some "abc", some 0, some "new-order", some 1⟩)
          none none).order.bind (fun o => o.request_id) = some 0) ∧
    (stepOp cryptoEnv0 ⟨none, some "sk", true, 1, [0], []⟩
        (MOp.privateMessage "mostro-pk"
          (some ⟨some ⟨some 1, some "abc", some 0, some "new-order", some 1⟩, none, none⟩)) =
      ⟨none, some "sk", true, 1, [0], []⟩ ∧
     0 ∈ (stepOp cryptoEnv0 ⟨none, some "sk", true, 1, [0], []⟩
        (MOp.privateMessage "mostro-pk"
          (some ⟨some ⟨some 1, some "abc", some 0, some "new-order", some 1⟩, none,
            none⟩))).pendingRequests ∧
     ∀ i mm, Emitted.resolvePending i mm ∉
        handlePrivateMessage
          (some ⟨some ⟨some 1, some "abc", some 0, some "new-order", some 1⟩, none, none⟩)
          "mostro-pk") :=
  ⟨⟨by decide, rfl⟩,
   handlePrivateMessage_never_resolves cryptoEnv0 ⟨none, some "sk", true, 1, [0], []⟩
     "mostro-pk" ⟨some ⟨some 1, some "abc", some 0, some "new-order", some 1⟩, none, none⟩ 0
     (by decide) rfl⟩

/-- Claim C2 fails on the code: `getMostroPublicKey` (mostro.ts lines
443-445) returns `nostr.getMyPubKey` — the public key derived from the
instance's own private key — so every trade action gift-wraps and p-tags
its payload to the client's own derived key, not to the configured
`mostroPubKey`.  Shown here for `takeSell`: whenever the derived key
differs from the configured key, the published kind-1059 event's
encryption recipient and p tag differ from the configured key. -/
theorem takeSell_publishes_to_own_derived_key (c : CryptoEnv) (env : RandomEnv)
    (s : MostroState) (o : Order) (amount : Option Int) (k : String)
    (hk : s.privateKey = some k) :
    ∃ gw, mostroTakeSell c env s o amount = Except.ok ((createPendingRequest s).2, gw) ∧
      gw.encryptedTo = c.derivePub k ∧
      gw.tags = [["p", c.derivePub k]] ∧
      ∀ m, s.mostroPubKey = some m → c.derivePub k ≠ m →
        gw.encryptedTo ≠ m ∧ gw.tags ≠ [["p", m]] := by
  refine ⟨createGiftWrapEvent env
      ⟨env.rumorId, c.derivePub k, randomTimestamp env.nowMs env.rInner, 1, [],
        payloadOrderToJson (takeSellPayload s.nextRequestId o amount)⟩
      (c.derivePub k), ?_, rfl, rfl, ?_⟩
  · unfold mostroTakeSell getMostroPublicKey getMyPubKey createAndPublishMostroEvent
    dsimp only [createPendingRequest]
    rw [hk]
  · intro m hm hne
    refine ⟨hne, ?_⟩
    intro htags
    have : c.derivePub k = m := by
      have h1 := congrArg (fun l => (l.headD []).getD 1 "") htags
      simpa using h1
    exact hne this

/-- Witness for C2: a concrete instance configured with
`mostroPubKey = "mostro"` and a private key deriving `"sk-pub"`; the
published event is encrypted and p-tagged to `"sk-pub"`, not `"mostro"`. -/
theorem takeSell_publishes_to_own_derived_key_witness :
    ((⟨some "mostro", some "sk", true, 0, [], []⟩ : MostroState).privateKey = some "sk") ∧
    (∃ gw, mostroTakeSell cryptoEnv0 randomEnv0
          ⟨some "mostro", some "sk", true, 0, [], []⟩ order0 none =
        Except.ok ((createPendingRequest ⟨some "mostro", some "sk", true, 0, [], []⟩).2, gw) ∧
      gw.encryptedTo = cryptoEnv0.derivePub "sk" ∧
      gw.tags = [["p", cryptoEnv0.derivePub "sk"]] ∧
      ∀ m, (⟨some "mostro", some "sk", true, 0, [], []⟩ : MostroState).mostroPubKey = some m →
        cryptoEnv0.derivePub "sk" ≠ m →
          gw.encryptedTo ≠ m ∧ gw.tags ≠ [["p", m]]) :=
  ⟨rfl,
   takeSell_publishes_to_own_derived_key cryptoEnv0 randomEnv0
     ⟨some "mostro", some "sk", true, 0, [], []⟩ order0 none "sk" rfl⟩

/-- Claim C3 fails on the code: `handlePublicMessage` (mostro.ts lines
110-131) only acts when `event.kind === 4`, while the gateway's order
subscriptions (nostr.ts lines 169-189) deliver kind-38383 events.  Every
inbound kind-38383 event is therefore dropped without reaching the order
tag filter: neither `order-update` nor `mostro-info` is ever emitted. -/
theorem handlePublicMessage_drops_38383 (ev : NostrEvent) (h : ev.kind = 38383) :
    handlePublicMessage ev = [] := by
  unfold handlePublicMessage
  rw [if_neg]
  omega

/-- Witness for C3 at the spec's example order event. -/
theorem handlePublicMessage_drops_38383_witness :
    (NostrEvent.kind ⟨"e1", "mostro", 0, 38383,
        [["z", "order"], ["k", "sell"], ["f", "USD"], ["d", "o1"], ["s", "pending"]],
        ""⟩ = 38383) ∧
    handlePublicMessage ⟨"e1", "mostro", 0, 38383,
        [["z", "order"], ["k", "sell"], ["f", "USD"], ["d", "o1"], ["s", "pending"]],
        ""⟩ = [] :=
  ⟨rfl,
   handlePublicMessage_drops_38383
     ⟨"e1", "mostro", 0, 38383,
      [["z", "order"], ["k", "sell"], ["f", "USD"], ["d", "o1"], ["s", "pending"]], ""⟩
     rfl⟩

/-- Claim C4 counterexample: with `amount = undefined`, `addInvoice`'s
`payment_request` serializes as the THREE-element array
`[null, invoice, null]` (JSON.stringify turns the `undefined` element into
`null`), not the claimed two-element `[null, invoice]`. -/
theorem addInvoice_undefined_amount_three_elements :
    contentToJson (addInvoicePayload 0 order0 "lnbc1" none).content =
      Json.obj [("payment_request", Json.arr [Json.null, Json.str "lnbc1", Json.null])] ∧
    contentToJson (addInvoicePayload 0 order0 "lnbc1" none).content ≠
      Json.obj [("payment_request", Json.arr [Json.null, Json.str "lnbc1"])] := by
  refine ⟨rfl, ?_⟩
  intro h
  simp [addInvoicePayload, contentToJson] at h

/-- Claim C4 amended: `addInvoice` always serializes `payment_request` as a
three-element array — `[null, invoice, null]` when no amount is supplied,
`[null, invoice, amount]` when it is. -/
theorem addInvoice_payment_request_serialization (rid : Nat) (o : Order)
    (invoice : String) :
    contentToJson (addInvoicePayload rid o invoice none).content =
      Json.obj [("payment_request", Json.arr [Json.null, Json.str invoice, Json.null])] ∧
    ∀ a : Int, contentToJson (addInvoicePayload rid o invoice (some a)).content =
      Json.obj [("payment_request", Json.arr [Json.null, Json.str invoice, Json.num a])] :=
  ⟨rfl, fun _ => rfl⟩

/-- Claim C5 counterexample: `take_sell` and `take_buy` with the supplied
amount `0` (falsy in JavaScript) produce content `null`, not
`{amount: 0}`. -/
theorem takeSell_zero_amount_content_null :
    (takeSellPayload 0 order0 (some 0)).content = PContent.null ∧
    (takeSellPayload 0 order0 (some 0)).content ≠ PContent.amount 0 ∧
    (takeBuyPayload 0 order0 (some 0)).content = PContent.null ∧
    (takeBuyPayload 0 order0 (some 0)).content ≠ PContent.amount 0 := by
  refine ⟨rfl, ?_, rfl, ?_⟩ <;> intro h <;> simp [takeSellPayload, takeBuyPayload] at h

/-- Claim C5 amended: the content of `take_sell`/`take_buy` is
`{amount: a}` exactly when a truthy (non-zero) amount is supplied; with no
amount, or with the falsy amount `0`, the content is `null`. -/
theorem takeSell_takeBuy_content (rid : Nat) (o : Order) :
    (takeSellPayload rid o none).content = PContent.null ∧
    (∀ a : Int, a ≠ 0 → (takeSellPayload rid o (some a)).content = PContent.amount a) ∧
    (takeSellPayload rid o (some 0)).content = PContent.null ∧
    (takeBuyPayload rid o none).content = PContent.null ∧
    (∀ a : Int, a ≠ 0 → (takeBuyPayload rid o (some a)).content = PContent.amount a) ∧
    (takeBuyPayload rid o (some 0)).content = PContent.null := by
  refine ⟨rfl, ?_, by simp [takeSellPayload], rfl, ?_, by simp [takeBuyPayload]⟩ <;>
    intro a ha <;> simp [takeSellPayload, takeBuyPayload, ha]

/-- Witness for the amended C5 at a concrete nonzero amount. -/
theorem takeSell_takeBuy_content_witness :
    ((50000 : Int) ≠ 0) ∧
    (takeSellPayload 0 order0 (some 50000)).content = PContent.amount 50000 :=
  ⟨by norm_num, (takeSell_takeBuy_content 0 order0).2.1 50000 (by norm_num)⟩

/-- Claim C6 counterexample: on the input `"xyz"` — neither 64 hex chars
nor an nsec key — `updatePrivKey` returns successfully with the key left
unset (`Except.ok none`); the format error is caught and logged inside
(nostr.ts lines 415-418), never surfaced to the caller. -/
theorem updatePrivKey_invalid_returns_ok :
    nostrUpdatePrivKey (fun _ => none) "xyz" = Except.ok none := by rfl

/-- Claim C6 amended: for every input string that is neither 64 hex
characters nor `nsec`-prefixed, `updatePrivKey` catches the
`Invalid private key format` error internally and returns successfully
with the private key left unset; no error reaches the caller. -/
theorem updatePrivKey_swallows_format_errors (dec : String → Option String)
    (s : String) (h1 : s.startsWith "nsec" = false) (h2 : isHex64 s = false) :
    nostrUpdatePrivKey dec s = Except.ok none := by
  unfold nostrUpdatePrivKey
  by_cases he : s = ""
  · simp [he]
  · simp [he, h1, h2]

/-- Witness for the amended C6 at the concrete input `"xyz"`. -/
theorem updatePrivKey_swallows_format_errors_witness :
    (("xyz".startsWith "nsec" = false) ∧ isHex64 "xyz" = false) ∧
    nostrUpdatePrivKey (fun _ => some "k") "xyz" = Except.ok none :=
  ⟨⟨by decide, by decide⟩,
   updatePrivKey_swallows_format_errors (fun _ => some "k") "xyz" (by decide) (by decide)⟩

end MostroTools
